import Mathlib

/-!
Verification of the dissociation query service in `src/app.py`.

The service is a read-only Flask app over a PostgreSQL/PostGIS store with
three tables in schema `ns`:

* `ns.annotations_terms` with columns `study_id, contrast_id, term, weight`;
* `ns.coordinates` with columns `study_id, geom` (a 3D point, accessed via
  `ST_X/ST_Y/ST_Z`);
* `ns.metadata` with an unspecified column set (only counted and sampled).

We model the tables as Lean lists, SQL `SELECT DISTINCT ... WHERE ...
[NOT IN (...)]` as filter/map/dedup over those lists, and each HTTP handler as
a function from the store contents and a per-request executor outcome to an
HTTP-level response.  Study identifiers are kept abstract (`σ` with decidable
equality); stored point components are rationals, standing in for the
real-valued columns the spatial functions return.
-/

/-- Whether a list of characters is a valid continuation of the digit part of a
Python integer literal: digits, with a single `_` allowed between two digits
(Python's `int` accepts `"1_0"` but not `"1__0"`, `"_1"` or `"1_"`). -/
def pyDigitsTail : List Char → Bool
  | [] => true
  | '_' :: rest =>
    match rest with
    | [] => false
    | c :: rest2 => c.isDigit && pyDigitsTail rest2
  | c :: rest => c.isDigit && pyDigitsTail rest

/-- The digit part of a Python integer literal: nonempty, starts with a digit,
then `pyDigitsTail`. -/
def pyIntBody : List Char → Bool
  | [] => false
  | c :: rest => c.isDigit && pyDigitsTail rest

/-- Numeric value of a digit string, skipping the group separators `_`. -/
def digitsVal (cs : List Char) : Nat :=
  cs.foldl (fun acc c => if c.isDigit then acc * 10 + (c.toNat - 48) else acc) 0

/-- Python's `str.strip()` on a character list: drop whitespace from both
ends. -/
def stripChars (cs : List Char) : List Char :=
  ((cs.dropWhile Char.isWhitespace).reverse.dropWhile Char.isWhitespace).reverse

/-- Model of Python's `int(token)`: strip surrounding whitespace, allow one
optional `+`/`-` sign, then require a digit string (ASCII digits with `_`
group separators); `none` models the `ValueError` Python raises otherwise.
A leading `-` yields a negative value: it is data, not a flag. -/
def pyInt? (tok : List Char) : Option Int :=
  match stripChars tok with
  | '+' :: rest => if pyIntBody rest then some (digitsVal rest) else none
  | '-' :: rest => if pyIntBody rest then some (-(digitsVal rest : Int)) else none
  | cs => if pyIntBody cs then some (digitsVal cs) else none

/-- Python's `s.split("_")` on a character list: split at every `_`; the empty
string yields `[""]`, and adjacent separators yield empty tokens, exactly as in
Python. -/
def splitUnderscore : List Char → List (List Char)
  | [] => [[]]
  | '_' :: rest => [] :: splitUnderscore rest
  | c :: rest =>
    match splitUnderscore rest with
    | [] => [[c]]
    | t :: ts => (c :: t) :: ts

/-- Model of `x, y, z = map(int, coords.split("_"))` as used by
`get_studies_by_coordinates` and `dissociate_locations`: split on `_`, require
exactly three tokens, parse each with `int`.  Any failure (wrong token count or
a token `int` rejects) raises in Python and is `none` here; no partial triple
is ever produced. -/
def parseCoords (s : String) : Option (Int × Int × Int) :=
  match splitUnderscore s.toList with
  | [a, b, c] => do
    let x ← pyInt? a
    let y ← pyInt? b
    let z ← pyInt? c
    pure (x, y, z)
  | _ => none

/-- A row of `ns.annotations_terms` (columns as listed by `test_db`). -/
structure AnnotationRow (σ : Type) where
  study_id : σ
  contrast_id : Nat
  term : String
  weight : ℚ
deriving DecidableEq

/-- A row of `ns.coordinates`: a study id and the three components of its
`geom` point, as returned by `ST_X`, `ST_Y`, `ST_Z`.  The components are
rationals, modelling the real-valued columns of the store. -/
structure CoordRow (σ : Type) where
  study_id : σ
  x : ℚ
  y : ℚ
  z : ℚ
deriving DecidableEq

/-- The backing store: the three `ns` tables plus the `version()` string.
`ns.metadata` has no schema visible to the app (it is only counted and sampled
with `SELECT *`), so its rows are modelled opaquely as strings. -/
structure Store (σ : Type) where
  annotations_terms : List (AnnotationRow σ)
  coordinates : List (CoordRow σ)
  metadata : List String
  version : String

/-- `SELECT study_id FROM ns.annotations_terms WHERE term = :t` — the
subquery used inside `NOT IN (...)` (no `DISTINCT`). -/
def termSub {σ : Type} (ann : List (AnnotationRow σ)) (t : String) : List σ :=
  (ann.filter fun r => decide (r.term = t)).map (·.study_id)

/-- `SELECT DISTINCT study_id FROM ns.annotations_terms WHERE term = :t` —
the query of `get_studies_by_term`. -/
def termStudies {σ : Type} [DecidableEq σ] (ann : List (AnnotationRow σ))
    (t : String) : List σ :=
  (termSub ann t).dedup

/-- The set-difference query of `dissociate_terms`:
`SELECT DISTINCT study_id FROM ns.annotations_terms WHERE term = :term_a AND
study_id NOT IN (SELECT study_id FROM ns.annotations_terms WHERE term =
:term_b)`. -/
def termDissoc {σ : Type} [DecidableEq σ] (ann : List (AnnotationRow σ))
    (ta tb : String) : List σ :=
  ((ann.filter fun r =>
      decide (r.term = ta ∧ r.study_id ∉ termSub ann tb)).map (·.study_id)).dedup

/-- The condition `ST_X(geom) = :x AND ST_Y(geom) = :y AND ST_Z(geom) = :z`
for an integer parameter triple `c` against a stored row `r`. -/
def atCoord {σ : Type} (c : Int × Int × Int) (r : CoordRow σ) : Prop :=
  r.x = (c.1 : ℚ) ∧ r.y = (c.2.1 : ℚ) ∧ r.z = (c.2.2 : ℚ)

instance {σ : Type} (c : Int × Int × Int) (r : CoordRow σ) :
    Decidable (atCoord c r) := by unfold atCoord; infer_instance

/-- `SELECT study_id FROM ns.coordinates WHERE ST_X(geom) = :x AND ...` — the
subquery used inside `NOT IN (...)` (no `DISTINCT`). -/
def coordSub {σ : Type} (crd : List (CoordRow σ)) (c : Int × Int × Int) :
    List σ :=
  (crd.filter fun r => decide (atCoord c r)).map (·.study_id)

/-- `SELECT DISTINCT study_id FROM ns.coordinates WHERE ST_X(geom) = :x AND
...` — the query of `get_studies_by_coordinates`. -/
def coordStudies {σ : Type} [DecidableEq σ] (crd : List (CoordRow σ))
    (c : Int × Int × Int) : List σ :=
  (coordSub crd c).dedup

/-- The set-difference query of `dissociate_locations`:
`SELECT DISTINCT study_id FROM ns.coordinates WHERE <at coords ca> AND
study_id NOT IN (SELECT study_id FROM ns.coordinates WHERE <at coords cb>)`. -/
def coordDissoc {σ : Type} [DecidableEq σ] (crd : List (CoordRow σ))
    (ca cb : Int × Int × Int) : List σ :=
  ((crd.filter fun r =>
      decide (atCoord ca r ∧ r.study_id ∉ coordSub crd cb)).map (·.study_id)).dedup

/-- HTTP-level outcome of a handler: `ok` is a 200 JSON payload, `badRequest`
is the `abort(400, msg)` path, `serverError` is the
`jsonify({"error": str(e)}), 500` path (whose body carries the underlying
store error text). -/
inductive HResp (α : Type) where
  | ok (payload : α)
  | badRequest (msg : String)
  | serverError (msg : String)
deriving DecidableEq

/-- The HTTP status code of a response. -/
def HResp.status {α : Type} : HResp α → Nat
  | .ok _ => 200
  | .badRequest _ => 400
  | .serverError _ => 500

/-- Outcome of each SQL statement a handler executes, in execution order:
`ex i = some msg` means the `i`-th statement raises an exception with message
`msg`; `ex i = none` means it succeeds.  This models the store executor, whose
individual `conn.execute` calls can each fail.  Each handler consults each
statement index at most once: the core never retries. -/
def Exec : Type := Nat → Option String

/-- The success payload of `get_studies_by_term`:
`{"term": ..., "studies": [...], "count": len(studies)}`. -/
structure TermListPayload (σ : Type) where
  term : String
  studies : List σ
  count : Nat
deriving DecidableEq

/-- The success payload of `get_studies_by_coordinates`:
`{"coordinates": [x, y, z], "studies": [...], "count": len(studies)}`. -/
structure CoordListPayload (σ : Type) where
  coordinates : List Int
  studies : List σ
  count : Nat
deriving DecidableEq

/-- The success payload of `dissociate_terms`. -/
structure TermDissocPayload (σ : Type) where
  A_minus_B : List σ
  B_minus_A : List σ
  term_a : String
  term_b : String
  count_a_minus_b : Nat
  count_b_minus_a : Nat
deriving DecidableEq

/-- The success payload of `dissociate_locations`. -/
structure LocDissocPayload (σ : Type) where
  A_minus_B : List σ
  B_minus_A : List σ
  coords_a : List Int
  coords_b : List Int
  count_a_minus_b : Nat
  count_b_minus_a : Nat
deriving DecidableEq

/-- Handler of `GET /terms/<term>/studies`.  Statement 0 is
`SET search_path TO ns, public` (or the failure of `eng.begin()` itself),
statement 1 the `SELECT DISTINCT` query; any raised exception is caught and
returned as a 500 with the error text. -/
def get_studies_by_term {σ : Type} [DecidableEq σ] (st : Store σ) (ex : Exec)
    (term : String) : HResp (TermListPayload σ) :=
  match ex 0 with
  | some e => .serverError e
  | none =>
  match ex 1 with
  | some e => .serverError e
  | none =>
    let studies := termStudies st.annotations_terms term
    .ok { term := term, studies := studies, count := studies.length }

/-- Handler of `GET /locations/<coords>/studies`.  The coordinate string is
parsed first; failure aborts with 400 before any statement runs.  Statement 0
is `SET search_path`, statement 1 the `SELECT DISTINCT` query. -/
def get_studies_by_coordinates {σ : Type} [DecidableEq σ] (st : Store σ)
    (ex : Exec) (coords : String) : HResp (CoordListPayload σ) :=
  match parseCoords coords with
  | none => .badRequest "Coordinates must be in x_y_z format."
  | some c =>
  match ex 0 with
  | some e => .serverError e
  | none =>
  match ex 1 with
  | some e => .serverError e
  | none =>
    let studies := coordStudies st.coordinates c
    .ok { coordinates := [c.1, c.2.1, c.2.2], studies := studies,
          count := studies.length }

/-- Handler of `GET /dissociate/terms/<term_a>/<term_b>`.  Statement 0 is
`SET search_path`, statement 1 the A-minus-B query, statement 2 the B-minus-A
query.  If any statement raises, the whole request returns 500: the payload is
only built after both queries succeed, so no partial result is ever
returned. -/
def dissociate_terms {σ : Type} [DecidableEq σ] (st : Store σ) (ex : Exec)
    (term_a term_b : String) : HResp (TermDissocPayload σ) :=
  match ex 0 with
  | some e => .serverError e
  | none =>
  match ex 1 with
  | some e => .serverError e
  | none =>
  match ex 2 with
  | some e => .serverError e
  | none =>
    let studies_a := termDissoc st.annotations_terms term_a term_b
    let studies_b := termDissoc st.annotations_terms term_b term_a
    .ok { A_minus_B := studies_a, B_minus_A := studies_b,
          term_a := term_a, term_b := term_b,
          count_a_minus_b := studies_a.length,
          count_b_minus_a := studies_b.length }

/-- Handler of `GET /dissociate/locations/<coords_a>/<coords_b>`.  Both
coordinate strings are parsed inside one `try`; any parse failure aborts with
400 before any statement runs.  Statement 0 is `SET search_path`, statement 1
the A-minus-B query, statement 2 the B-minus-A query; a raised statement makes
the whole request a 500 with the error text and no partial result. -/
def dissociate_locations {σ : Type} [DecidableEq σ] (st : Store σ) (ex : Exec)
    (coords_a coords_b : String) : HResp (LocDissocPayload σ) :=
  match parseCoords coords_a, parseCoords coords_b with
  | some a, some b =>
    (match ex 0 with
    | some e => .serverError e
    | none =>
    match ex 1 with
    | some e => .serverError e
    | none =>
    match ex 2 with
    | some e => .serverError e
    | none =>
      let studies_a := coordDissoc st.coordinates a b
      let studies_b := coordDissoc st.coordinates b a
      .ok { A_minus_B := studies_a, B_minus_A := studies_b,
            coords_a := [a.1, a.2.1, a.2.2], coords_b := [b.1, b.2.1, b.2.2],
            count_a_minus_b := studies_a.length,
            count_b_minus_a := studies_b.length })
  | _, _ => .badRequest "Coordinates must be in x_y_z format."

/-- The locations dissociation endpoint invoked with a `radius`/`threshold`
query parameter.  Flask passes query parameters to a view only through
`request.args`, and `dissociate_locations` never reads `request.args`, so the
parameter is accepted by the HTTP layer and ignored: the response is that of
`dissociate_locations`, identical for every threshold value. -/
def dissociate_locations_with_threshold {σ : Type} [DecidableEq σ]
    (st : Store σ) (ex : Exec) (coords_a coords_b : String) (_threshold : ℚ) :
    HResp (LocDissocPayload σ) :=
  dissociate_locations st ex coords_a coords_b

/-- The data assembled by `test_db` (the handler renders it as HTML; the
rendering is presentation and not modelled): the `version()` string, the three
`COUNT(*)` values, and up to three sample rows from each table. -/
structure TestDbPayload (σ : Type) where
  version : String
  coordinates_count : Nat
  metadata_count : Nat
  annotations_terms_count : Nat
  coordinates_sample : List (CoordRow σ)
  metadata_sample : List String
  annotations_sample : List (AnnotationRow σ)
deriving DecidableEq

/-- Handler of `GET /test_db`.  Statements in order: 0 `SET search_path`,
1 `SELECT version()`, 2-4 the three `COUNT(*)` queries, 5-7 the three
`LIMIT 3` sample queries.  Statements 0-4 are unguarded: a failure raises out
to the outer handler, which returns 500 with the error text.  Each sample
query 5-7 sits in its own `try/except: pass`, so its failure degrades that
sample to the empty list and the response is still a 200. -/
def test_db {σ : Type} (st : Store σ) (ex : Exec) : HResp (TestDbPayload σ) :=
  match ex 0 with
  | some e => .serverError e
  | none =>
  match ex 1 with
  | some e => .serverError e
  | none =>
  match ex 2 with
  | some e => .serverError e
  | none =>
  match ex 3 with
  | some e => .serverError e
  | none =>
  match ex 4 with
  | some e => .serverError e
  | none =>
    let csample := match ex 5 with
      | some _ => []
      | none => st.coordinates.take 3
    let msample := match ex 6 with
      | some _ => []
      | none => st.metadata.take 3
    let asample := match ex 7 with
      | some _ => []
      | none => st.annotations_terms.take 3
    .ok { version := st.version,
          coordinates_count := st.coordinates.length,
          metadata_count := st.metadata.length,
          annotations_terms_count := st.annotations_terms.length,
          coordinates_sample := csample,
          metadata_sample := msample,
          annotations_sample := asample }

/-- A small concrete annotations table for instantiations: studies 1 and 3
mention term `"a"`, studies 2 and 3 mention term `"b"`. -/
def exAnn : List (AnnotationRow Nat) :=
  [⟨1, 0, "a", 0⟩, ⟨2, 0, "b", 0⟩, ⟨3, 0, "a", 0⟩, ⟨3, 1, "b", 0⟩]

/-- A small concrete coordinates table for instantiations: studies 1 and 3
report (0,-52,26), studies 2 and 3 report (-2,50,-6). -/
def exCrd : List (CoordRow Nat) :=
  [⟨1, 0, -52, 26⟩, ⟨2, -2, 50, -6⟩, ⟨3, 0, -52, 26⟩, ⟨3, -2, 50, -6⟩]

/-- A small concrete store for instantiations. -/
def exStore : Store Nat :=
  ⟨exAnn, exCrd, ["meta-row-1"], "PostgreSQL 16.0"⟩

/-- An executor on which every statement succeeds. -/
def exOk : Exec := fun _ => none

/-- An executor whose every statement raises with the same message, modelling
a store whose connection is down. -/
def exFail (msg : String) : Exec := fun _ => some msg

/-- An executor on which exactly the statement at index `i` raises `msg`. -/
def exFailAt (i : Nat) (msg : String) : Exec :=
  fun j => if j = i then some msg else none

/-- The concrete 200 payload of `/terms/a/studies` on the example store. -/
def wTermList : TermListPayload Nat := ⟨"a", [1, 3], 2⟩

/-- The concrete 200 payload of `/locations/0_-52_26/studies` on the example
store. -/
def wCoordList : CoordListPayload Nat := ⟨[0, -52, 26], [1, 3], 2⟩

/-- The concrete 200 payload of `/dissociate/terms/a/b` on the example
store. -/
def wTermDissoc : TermDissocPayload Nat := ⟨[1], [2], "a", "b", 1, 1⟩

/-- The concrete 200 payload of the locations dissociation of (0,-52,26)
against (-2,50,-6) on the example store. -/
def wLocDissoc : LocDissocPayload Nat :=
  ⟨[1], [2], [0, -52, 26], [-2, 50, -6], 1, 1⟩

/-- An annotations table of `n` distinct studies all annotated with term
`"a"`. -/
def allA (n : Nat) : List (AnnotationRow Nat) :=
  (List.range n).map fun i => ⟨i, 0, "a", 0⟩

/-- A coordinates table whose two rows both lie at the origin, with study ids
in descending store order. -/
def unsortedCrd : List (CoordRow Nat) := [⟨2, 0, 0, 0⟩, ⟨1, 0, 0, 0⟩]

/-- Membership in the term subquery: some row has this term and study id. -/
theorem mem_termSub {σ : Type} (ann : List (AnnotationRow σ)) (t : String)
    (s : σ) :
    s ∈ termSub ann t ↔ ∃ r ∈ ann, r.term = t ∧ r.study_id = s := by
  simp only [termSub, List.mem_map, List.mem_filter, decide_eq_true_eq]
  constructor
  · rintro ⟨r, ⟨hr, ht⟩, rfl⟩
    exact ⟨r, hr, ht, rfl⟩
  · rintro ⟨r, hr, ht, rfl⟩
    exact ⟨r, ⟨hr, ht⟩, rfl⟩

/-- `DISTINCT` does not change membership in the term query. -/
theorem mem_termStudies {σ : Type} [DecidableEq σ]
    (ann : List (AnnotationRow σ)) (t : String) (s : σ) :
    s ∈ termStudies ann t ↔ s ∈ termSub ann t :=
  List.mem_dedup

/-- Membership in the term dissociation query is membership in the A subquery
together with absence from the B subquery. -/
theorem mem_termDissoc {σ : Type} [DecidableEq σ]
    (ann : List (AnnotationRow σ)) (ta tb : String) (s : σ) :
    s ∈ termDissoc ann ta tb ↔ s ∈ termSub ann ta ∧ s ∉ termSub ann tb := by
  simp only [termDissoc, List.mem_dedup, List.mem_map, List.mem_filter,
    decide_eq_true_eq]
  constructor
  · rintro ⟨r, ⟨hr, ht, hnb⟩, rfl⟩
    exact ⟨(mem_termSub ann ta _).mpr ⟨r, hr, ht, rfl⟩, hnb⟩
  · rintro ⟨ha, hnb⟩
    obtain ⟨r, hr, ht, rfl⟩ := (mem_termSub ann ta s).mp ha
    exact ⟨r, ⟨hr, ht, hnb⟩, rfl⟩

/-- Membership in the coordinate subquery: some row sits at this point and has
this study id. -/
theorem mem_coordSub {σ : Type} (crd : List (CoordRow σ)) (c : Int × Int × Int)
    (s : σ) :
    s ∈ coordSub crd c ↔ ∃ r ∈ crd, atCoord c r ∧ r.study_id = s := by
  simp only [coordSub, List.mem_map, List.mem_filter, decide_eq_true_eq]
  constructor
  · rintro ⟨r, ⟨hr, ht⟩, rfl⟩
    exact ⟨r, hr, ht, rfl⟩
  · rintro ⟨r, hr, ht, rfl⟩
    exact ⟨r, ⟨hr, ht⟩, rfl⟩

/-- `DISTINCT` does not change membership in the coordinate query. -/
theorem mem_coordStudies {σ : Type} [DecidableEq σ]
    (crd : List (CoordRow σ)) (c : Int × Int × Int) (s : σ) :
    s ∈ coordStudies crd c ↔ s ∈ coordSub crd c :=
  List.mem_dedup

/-- Membership in the coordinate dissociation query is membership in the A
subquery together with absence from the B subquery. -/
theorem mem_coordDissoc {σ : Type} [DecidableEq σ]
    (crd : List (CoordRow σ)) (ca cb : Int × Int × Int) (s : σ) :
    s ∈ coordDissoc crd ca cb ↔ s ∈ coordSub crd ca ∧ s ∉ coordSub crd cb := by
  simp only [coordDissoc, List.mem_dedup, List.mem_map, List.mem_filter,
    decide_eq_true_eq]
  constructor
  · rintro ⟨r, ⟨hr, ht, hnb⟩, rfl⟩
    exact ⟨(mem_coordSub crd ca _).mpr ⟨r, hr, ht, rfl⟩, hnb⟩
  · rintro ⟨ha, hnb⟩
    obtain ⟨r, hr, ht, rfl⟩ := (mem_coordSub crd ca s).mp ha
    exact ⟨r, ⟨hr, ht, hnb⟩, rfl⟩

/-- C1: every StudyReference in an A-minus-B dissociation result (term or
coordinate mode) satisfies operand A's membership predicate and does not
satisfy operand B's membership predicate, as evaluated against the same store
contents the query ran on. -/
theorem dissoc_in_A_not_in_B {σ : Type} [DecidableEq σ]
    (ann : List (AnnotationRow σ)) (crd : List (CoordRow σ))
    (ta tb : String) (ca cb : Int × Int × Int) (s : σ) :
    (s ∈ termDissoc ann ta tb →
      s ∈ termStudies ann ta ∧ s ∉ termStudies ann tb) ∧
    (s ∈ coordDissoc crd ca cb →
      s ∈ coordStudies crd ca ∧ s ∉ coordStudies crd cb) := by
  constructor
  · intro h
    obtain ⟨ha, hb⟩ := (mem_termDissoc ann ta tb s).mp h
    exact ⟨(mem_termStudies ann ta s).mpr ha,
      fun hmem => hb ((mem_termStudies ann tb s).mp hmem)⟩
  · intro h
    obtain ⟨ha, hb⟩ := (mem_coordDissoc crd ca cb s).mp h
    exact ⟨(mem_coordStudies crd ca s).mpr ha,
      fun hmem => hb ((mem_coordStudies crd cb s).mp hmem)⟩

/-- Witness for C1: study 1 lies in `"a"` minus `"b"` on the concrete store,
hence matches `"a"` and not `"b"`. -/
theorem dissoc_in_A_not_in_B_witness :
    (1 : Nat) ∈ termStudies exAnn "a" ∧ (1 : Nat) ∉ termStudies exAnn "b" :=
  (dissoc_in_A_not_in_B exAnn exCrd "a" "b" (0, -52, 26) (-2, 50, -6) 1).1
    (by decide)

/-- C4: for distinct operands queried in both directions, the A-minus-B and
B-minus-A result sets are disjoint: no StudyReference is in both. -/
theorem both_directions_disjoint {σ : Type} [DecidableEq σ]
    (ann : List (AnnotationRow σ)) (crd : List (CoordRow σ))
    (ta tb : String) (ca cb : Int × Int × Int)
    (hterm : ta ≠ tb) (hcoord : ca ≠ cb) (s : σ) :
    ¬(s ∈ termDissoc ann ta tb ∧ s ∈ termDissoc ann tb ta) ∧
    ¬(s ∈ coordDissoc crd ca cb ∧ s ∈ coordDissoc crd cb ca) := by
  refine ⟨fun ⟨h1, h2⟩ => ?_, fun ⟨h1, h2⟩ => ?_⟩
  · exact ((mem_termDissoc ann ta tb s).mp h1).2
      ((mem_termDissoc ann tb ta s).mp h2).1
  · exact ((mem_coordDissoc crd ca cb s).mp h1).2
      ((mem_coordDissoc crd cb ca s).mp h2).1

/-- Witness for C4 at the concrete store with distinct operands. -/
theorem both_directions_disjoint_witness :
    ¬((1 : Nat) ∈ termDissoc exAnn "a" "b" ∧
        (1 : Nat) ∈ termDissoc exAnn "b" "a") ∧
    ¬((1 : Nat) ∈ coordDissoc exCrd (0, -52, 26) (-2, 50, -6) ∧
        (1 : Nat) ∈ coordDissoc exCrd (-2, 50, -6) (0, -52, 26)) :=
  both_directions_disjoint exAnn exCrd "a" "b" (0, -52, 26) (-2, 50, -6)
    (by decide) (by decide) 1

/-- C5: when the two operands are identical (the same term string, or the same
coordinate triple), the A-minus-B result is empty. -/
theorem self_dissociation_empty {σ : Type} [DecidableEq σ]
    (ann : List (AnnotationRow σ)) (crd : List (CoordRow σ))
    (t : String) (c : Int × Int × Int) :
    termDissoc ann t t = [] ∧ coordDissoc crd c c = [] := by
  constructor
  · rw [List.eq_nil_iff_forall_not_mem]
    intro s hs
    obtain ⟨ha, hb⟩ := (mem_termDissoc ann t t s).mp hs
    exact hb ha
  · rw [List.eq_nil_iff_forall_not_mem]
    intro s hs
    obtain ⟨ha, hb⟩ := (mem_coordDissoc crd c c s).mp hs
    exact hb ha

/-- Inversion: a 200 from `get_studies_by_term` carries exactly the distinct
study list of the term query, with `count` set to its length. -/
theorem get_studies_by_term_ok {σ : Type} [DecidableEq σ] (st : Store σ)
    (ex : Exec) (t : String) (p : TermListPayload σ)
    (h : get_studies_by_term st ex t = .ok p) :
    p = ⟨t, termStudies st.annotations_terms t,
          (termStudies st.annotations_terms t).length⟩ := by
  cases h0 : ex 0 with
  | some e => simp [get_studies_by_term, h0] at h
  | none =>
    cases h1 : ex 1 with
    | some e => simp [get_studies_by_term, h0, h1] at h
    | none =>
      rw [get_studies_by_term, h0, h1] at h
      injection h with h
      exact h.symm

/-- Inversion: a 200 from `get_studies_by_coordinates` comes from a successful
parse and carries the distinct study list at that point, with `count` set to
its length. -/
theorem get_studies_by_coordinates_ok {σ : Type} [DecidableEq σ] (st : Store σ)
    (ex : Exec) (coords : String) (p : CoordListPayload σ)
    (h : get_studies_by_coordinates st ex coords = .ok p) :
    ∃ c, parseCoords coords = some c ∧
      p = ⟨[c.1, c.2.1, c.2.2], coordStudies st.coordinates c,
            (coordStudies st.coordinates c).length⟩ := by
  cases hc : parseCoords coords with
  | none => simp [get_studies_by_coordinates, hc] at h
  | some c =>
    refine ⟨c, rfl, ?_⟩
    cases h0 : ex 0 with
    | some e => simp [get_studies_by_coordinates, hc, h0] at h
    | none =>
      cases h1 : ex 1 with
      | some e => simp [get_studies_by_coordinates, hc, h0, h1] at h
      | none =>
        rw [get_studies_by_coordinates, hc, h0, h1] at h
        injection h with h
        exact h.symm

/-- Inversion: a 200 from `dissociate_terms` carries exactly the two
set-difference query results, with the `count` fields set to their lengths. -/
theorem dissociate_terms_ok {σ : Type} [DecidableEq σ] (st : Store σ)
    (ex : Exec) (term_a term_b : String) (p : TermDissocPayload σ)
    (h : dissociate_terms st ex term_a term_b = .ok p) :
    p = ⟨termDissoc st.annotations_terms term_a term_b,
          termDissoc st.annotations_terms term_b term_a,
          term_a, term_b,
          (termDissoc st.annotations_terms term_a term_b).length,
          (termDissoc st.annotations_terms term_b term_a).length⟩ := by
  cases h0 : ex 0 with
  | some e => simp [dissociate_terms, h0] at h
  | none =>
    cases h1 : ex 1 with
    | some e => simp [dissociate_terms, h0, h1] at h
    | none =>
      cases h2 : ex 2 with
      | some e => simp [dissociate_terms, h0, h1, h2] at h
      | none =>
        rw [dissociate_terms, h0, h1, h2] at h
        injection h with h
        exact h.symm

/-- Inversion: a 200 from `dissociate_locations` comes from two successful
parses and carries exactly the two set-difference query results, with the
`count` fields set to their lengths. -/
theorem dissociate_locations_ok {σ : Type} [DecidableEq σ] (st : Store σ)
    (ex : Exec) (coords_a coords_b : String) (p : LocDissocPayload σ)
    (h : dissociate_locations st ex coords_a coords_b = .ok p) :
    ∃ a b, parseCoords coords_a = some a ∧ parseCoords coords_b = some b ∧
      p = ⟨coordDissoc st.coordinates a b, coordDissoc st.coordinates b a,
            [a.1, a.2.1, a.2.2], [b.1, b.2.1, b.2.2],
            (coordDissoc st.coordinates a b).length,
            (coordDissoc st.coordinates b a).length⟩ := by
  cases ha : parseCoords coords_a with
  | none => simp [dissociate_locations, ha] at h
  | some a =>
    cases hb : parseCoords coords_b with
    | none => simp [dissociate_locations, ha, hb] at h
    | some b =>
      refine ⟨a, b, rfl, rfl, ?_⟩
      cases h0 : ex 0 with
      | some e => simp [dissociate_locations, ha, hb, h0] at h
      | none =>
        cases h1 : ex 1 with
        | some e => simp [dissociate_locations, ha, hb, h0, h1] at h
        | none =>
          cases h2 : ex 2 with
          | some e => simp [dissociate_locations, ha, hb, h0, h1, h2] at h
          | none =>
            rw [dissociate_locations, ha, hb, h0, h1, h2] at h
            injection h with h
            exact h.symm

/-- C10: every study list in a success response is duplicate-free (the queries
are `SELECT DISTINCT`), and each `count` field equals the length of its
list. -/
theorem success_lists_nodup_and_counted {σ : Type} [DecidableEq σ]
    (st : Store σ) (ex : Exec) (t sc ta tb ca cb : String)
    (p : TermListPayload σ) (q : CoordListPayload σ)
    (u : TermDissocPayload σ) (v : LocDissocPayload σ)
    (hp : get_studies_by_term st ex t = .ok p)
    (hq : get_studies_by_coordinates st ex sc = .ok q)
    (hu : dissociate_terms st ex ta tb = .ok u)
    (hv : dissociate_locations st ex ca cb = .ok v) :
    (p.studies.Nodup ∧ p.count = p.studies.length) ∧
    (q.studies.Nodup ∧ q.count = q.studies.length) ∧
    (u.A_minus_B.Nodup ∧ u.B_minus_A.Nodup ∧
      u.count_a_minus_b = u.A_minus_B.length ∧
      u.count_b_minus_a = u.B_minus_A.length) ∧
    (v.A_minus_B.Nodup ∧ v.B_minus_A.Nodup ∧
      v.count_a_minus_b = v.A_minus_B.length ∧
      v.count_b_minus_a = v.B_minus_A.length) := by
  obtain rfl := get_studies_by_term_ok st ex t p hp
  obtain ⟨c, -, rfl⟩ := get_studies_by_coordinates_ok st ex sc q hq
  obtain rfl := dissociate_terms_ok st ex ta tb u hu
  obtain ⟨a, b, -, -, rfl⟩ := dissociate_locations_ok st ex ca cb v hv
  refine ⟨⟨List.nodup_dedup _, rfl⟩, ⟨List.nodup_dedup _, rfl⟩,
    ⟨List.nodup_dedup _, List.nodup_dedup _, rfl, rfl⟩,
    ⟨List.nodup_dedup _, List.nodup_dedup _, rfl, rfl⟩⟩

/-- Witness for C10 on the example store. -/
theorem success_lists_nodup_and_counted_witness :
    (wTermList.studies.Nodup ∧ wTermList.count = wTermList.studies.length) ∧
    (wCoordList.studies.Nodup ∧ wCoordList.count = wCoordList.studies.length) ∧
    (wTermDissoc.A_minus_B.Nodup ∧ wTermDissoc.B_minus_A.Nodup ∧
      wTermDissoc.count_a_minus_b = wTermDissoc.A_minus_B.length ∧
      wTermDissoc.count_b_minus_a = wTermDissoc.B_minus_A.length) ∧
    (wLocDissoc.A_minus_B.Nodup ∧ wLocDissoc.B_minus_A.Nodup ∧
      wLocDissoc.count_a_minus_b = wLocDissoc.A_minus_B.length ∧
      wLocDissoc.count_b_minus_a = wLocDissoc.B_minus_A.length) :=
  success_lists_nodup_and_counted exStore exOk "a" "0_-52_26" "a" "b"
    "0_-52_26" "-2_50_-6" wTermList wCoordList wTermDissoc wLocDissoc
    (by decide) (by decide) (by decide) (by decide)

/-- C6: for a fixed coordinate operand pair, the A-minus-B and B-minus-A sets
obtained with a larger `radius`/`threshold` value contain those obtained with a
smaller value.  This holds degenerately: the handler never reads the query
parameter, so the two responses are identical. -/
theorem threshold_monotone {σ : Type} [DecidableEq σ] (st : Store σ)
    (ex : Exec) (coords_a coords_b : String) (t₁ t₂ : ℚ) (hle : t₁ ≤ t₂)
    (p₁ p₂ : LocDissocPayload σ)
    (h₁ : dissociate_locations_with_threshold st ex coords_a coords_b t₁
      = .ok p₁)
    (h₂ : dissociate_locations_with_threshold st ex coords_a coords_b t₂
      = .ok p₂) :
    (∀ s, s ∈ p₁.A_minus_B → s ∈ p₂.A_minus_B) ∧
    (∀ s, s ∈ p₁.B_minus_A → s ∈ p₂.B_minus_A) := by
  rw [dissociate_locations_with_threshold] at h₁ h₂
  rw [h₁] at h₂
  injection h₂ with h₂
  rw [h₂]
  exact ⟨fun s hs => hs, fun s hs => hs⟩

/-- Witness for C6 with thresholds 5 and 10 on the example store. -/
theorem threshold_monotone_witness : (1 : Nat) ∈ wLocDissoc.A_minus_B :=
  (threshold_monotone exStore exOk "0_-52_26" "-2_50_-6" 5 10 (by norm_num)
    wLocDissoc wLocDissoc (by decide) (by decide)).1 1 (by decide)

/-- C8: a malformed coordinate (wrong token count or a token `int` rejects)
yields HTTP 400 on both coordinate endpoints; a store failure yields HTTP 500
whose body is exactly the underlying store error text (statement 0, the first
statement the handler runs, is consulted once — there is no retry path); and
an empty query result is a 200 response carrying an empty list and count 0,
not an error. -/
theorem error_taxonomy {σ : Type} [DecidableEq σ] (st : Store σ)
    (exf exs : Exec) (t ta tb ca cb : String) (e : String)
    (hbad : parseCoords ca = none)
    (hfail : exf 0 = some e)
    (hok0 : exs 0 = none) (hok1 : exs 1 = none)
    (hempty : termStudies st.annotations_terms t = []) :
    ((get_studies_by_coordinates st exf ca).status = 400 ∧
      (dissociate_locations st exf ca cb).status = 400) ∧
    (get_studies_by_term st exf t = .serverError e ∧
      dissociate_terms st exf ta tb = .serverError e) ∧
    ((get_studies_by_term st exs t = .ok ⟨t, [], 0⟩) ∧
      (get_studies_by_term st exs t).status = 200) := by
  refine ⟨⟨?_, ?_⟩, ⟨?_, ?_⟩, ?_, ?_⟩
  · rw [get_studies_by_coordinates, hbad]; rfl
  · rw [dissociate_locations, hbad]; rfl
  · rw [get_studies_by_term, hfail]
  · rw [dissociate_terms, hfail]
  · rw [get_studies_by_term, hok0, hok1, hempty]; rfl
  · rw [get_studies_by_term, hok0, hok1]; rfl

/-- Witness for C8: the two-token coordinate "0_-52", a downed store, and a
term matching no study, on the example store. -/
theorem error_taxonomy_witness :
    ((get_studies_by_coordinates exStore (exFail "connection refused")
        "0_-52").status = 400 ∧
      (dissociate_locations exStore (exFail "connection refused")
        "0_-52" "-2_50_-6").status = 400) ∧
    (get_studies_by_term exStore (exFail "connection refused") "zzz"
        = .serverError "connection refused" ∧
      dissociate_terms exStore (exFail "connection refused") "a" "b"
        = .serverError "connection refused") ∧
    ((get_studies_by_term exStore exOk "zzz" = .ok ⟨"zzz", [], 0⟩) ∧
      (get_studies_by_term exStore exOk "zzz").status = 200) :=
  error_taxonomy exStore (exFail "connection refused") exOk
    "zzz" "a" "b" "0_-52" "-2_50_-6" "connection refused"
    (by decide) rfl rfl rfl (by decide)

/-- C9: in `test_db`, a failed sample sub-query degrades to an empty sample
list while the response stays a 200 with the other samples intact — and this
degrade-to-empty never applies to a dissociation: if the B-minus-A predicate
query of `dissociate_terms` raises, the whole request is a 500 with no partial
result. -/
theorem degrade_only_diagnostic_samples {σ : Type} [DecidableEq σ]
    (st : Store σ) (exd exq : Exec) (ta tb : String) (e₁ e₂ : String)
    (hd0 : exd 0 = none) (hd1 : exd 1 = none) (hd2 : exd 2 = none)
    (hd3 : exd 3 = none) (hd4 : exd 4 = none) (hd5 : exd 5 = some e₁)
    (hd6 : exd 6 = none) (hd7 : exd 7 = none)
    (hq0 : exq 0 = none) (hq1 : exq 1 = none) (hq2 : exq 2 = some e₂) :
    test_db st exd =
      .ok ⟨st.version, st.coordinates.length, st.metadata.length,
            st.annotations_terms.length, [], st.metadata.take 3,
            st.annotations_terms.take 3⟩ ∧
    dissociate_terms st exq ta tb = .serverError e₂ := by
  constructor
  · rw [test_db, hd0, hd1, hd2, hd3, hd4, hd5, hd6, hd7]
  · rw [dissociate_terms, hq0, hq1, hq2]

/-- Witness for C9: on the example store, the coordinates sample query fails
while everything else succeeds, and the B-minus-A query of a dissociation
fails. -/
theorem degrade_only_diagnostic_samples_witness :
    test_db exStore (exFailAt 5 "sample failed") =
      .ok ⟨exStore.version, exStore.coordinates.length,
            exStore.metadata.length, exStore.annotations_terms.length, [],
            exStore.metadata.take 3, exStore.annotations_terms.take 3⟩ ∧
    dissociate_terms exStore (exFailAt 2 "query failed") "a" "b"
      = .serverError "query failed" :=
  degrade_only_diagnostic_samples exStore (exFailAt 5 "sample failed")
    (exFailAt 2 "query failed") "a" "b" "sample failed" "query failed"
    rfl rfl rfl rfl rfl rfl rfl rfl rfl rfl rfl

/-- On `allA n`, the `"a"`-minus-`"b"` dissociation returns every one of the
`n` studies: the queries contain no `LIMIT` clause, so nothing truncates the
result. -/
theorem termDissoc_allA (n : Nat) :
    termDissoc (allA n) "a" "b" = List.range n := by
  have hsub : termSub (allA n) "b" = [] := by
    simp [termSub, allA, List.filter_eq_nil_iff]
  have hfil : (allA n).filter
      (fun r => decide (r.term = "a" ∧ r.study_id ∉ termSub (allA n) "b"))
      = allA n := by
    rw [List.filter_eq_self]
    intro r hr
    simp only [allA, List.mem_map, List.mem_range] at hr
    obtain ⟨i, -, rfl⟩ := hr
    simp [hsub]
  rw [termDissoc, hfil]
  have hmap : (allA n).map (·.study_id) = List.range n := by
    simp [allA, List.map_map, Function.comp_def]
  rw [hmap]
  exact List.dedup_eq_self.mpr (List.nodup_range _)

/-- C3 refutation: on a store holding 101 studies all annotated with `"a"` and
none with `"b"`, the A-minus-B result of `/dissociate/terms/a/b` has 101 rows —
more than the claimed cap of 100. -/
theorem result_cap_counterexample :
    100 < (termDissoc (allA 101) "a" "b").length := by
  rw [termDissoc_allA, List.length_range]
  norm_num

/-- C3 amended: no result cap exists at all.  The dissociation queries carry
no `LIMIT` clause, so for every bound there is a store whose A-minus-B result
is longer: the result size is exactly the number of distinct matching
studies. -/
theorem no_result_cap (n : Nat) :
    ∃ ann : List (AnnotationRow Nat), n < (termDissoc ann "a" "b").length :=
  ⟨allA (n + 1), by rw [termDissoc_allA, List.length_range]; omega⟩

/-- C7 refutation: both returned studies lie exactly at operand A, so their
distances from A are equal and the claimed tie-break requires ascending
StudyReference order — but the query has no `ORDER BY` and returns the store's
row order `[2, 1]`, which is not ascending. -/
theorem spatial_ordering_counterexample :
    coordDissoc unsortedCrd (0, 0, 0) (5, 5, 5) = [2, 1] ∧
    ¬ List.Sorted (· ≤ ·) (coordDissoc unsortedCrd (0, 0, 0) (5, 5, 5)) := by
  constructor
  · decide
  · intro h
    rw [show coordDissoc unsortedCrd (0, 0, 0) (5, 5, 5) = [2, 1] from
      by decide] at h
    exact absurd (List.rel_of_sorted_cons h 1 (by simp)) (by norm_num)

/-- C7 amended: the spatial dissociation queries have no `ORDER BY` and return
no distance column; the returned study ids are a subsequence of the
coordinates table in store row order, with no sorting applied. -/
theorem coordDissoc_subsequence_of_store_order {σ : Type} [DecidableEq σ]
    (crd : List (CoordRow σ)) (ca cb : Int × Int × Int) :
    List.Sublist (coordDissoc crd ca cb) (crd.map (·.study_id)) :=
  (List.dedup_sublist _).trans ((List.filter_sublist _).map _)

/-- C2 refutation: `"0.5_1_2"` has exactly three underscore-delimited
real-valued numeric tokens, so the claim requires parsing to succeed with the
triple (0.5, 1, 2) — but the handlers parse tokens with `int`, which rejects
`"0.5"`: the parse fails and the dissociation request aborts with 400. -/
theorem decimal_coordinate_counterexample :
    parseCoords "0.5_1_2" = none ∧
    dissociate_locations exStore exOk "0.5_1_2" "0_-52_26"
      = .badRequest "Coordinates must be in x_y_z format." := by
  constructor
  · decide
  · rfl

/-- C2 amended: parsing succeeds exactly on strings of three
underscore-delimited tokens that `int` accepts (optional sign and decimal
digits — so negatives parse, decimals such as `"0.5"` do not), and then yields
exactly the integer triple; on a wrong token count or a token `int` rejects it
yields `none` — the handlers then abort with 400 — and never a partial
triple. -/
theorem parse_coords_amended (s : String) :
    (∀ a b c : List Char, ∀ x y z : Int,
      splitUnderscore s.toList = [a, b, c] →
      pyInt? a = some x → pyInt? b = some y → pyInt? c = some z →
      parseCoords s = some (x, y, z)) ∧
    ((splitUnderscore s.toList).length ≠ 3 ∨
        (∃ tok ∈ splitUnderscore s.toList, pyInt? tok = none) →
      parseCoords s = none) := by
  constructor
  · intro a b c x y z hs ha hb hc
    rw [parseCoords, hs]
    simp [ha, hb, hc]
  · intro h
    cases hp : parseCoords s with
    | none => rfl
    | some v =>
      exfalso
      rw [parseCoords] at hp
      rcases hs : splitUnderscore s.toList with
          _ | ⟨a, _ | ⟨b, _ | ⟨c, _ | ⟨d, rest⟩⟩⟩⟩ <;>
        rw [hs] at hp
      · exact Option.noConfusion hp
      · exact Option.noConfusion hp
      · exact Option.noConfusion hp
      · replace hp : (do
            let x ← pyInt? a
            let y ← pyInt? b
            let z ← pyInt? c
            pure (x, y, z) : Option (Int × Int × Int)) = some v := hp
        rcases h with hlen | ⟨tok, htok, hnone⟩
        · exact hlen (by rw [hs]; rfl)
        · cases hxa : pyInt? a with
          | none => rw [hxa] at hp; exact Option.noConfusion hp
          | some x =>
            cases hxb : pyInt? b with
            | none => rw [hxa, hxb] at hp; exact Option.noConfusion hp
            | some y =>
              cases hxc : pyInt? c with
              | none => rw [hxa, hxb, hxc] at hp; exact Option.noConfusion hp
              | some z =>
                rw [hs] at htok
                simp only [List.mem_cons, List.not_mem_nil, or_false] at htok
                rcases htok with rfl | rfl | rfl
                · exact Option.noConfusion (hnone ▸ hxa)
                · exact Option.noConfusion (hnone ▸ hxb)
                · exact Option.noConfusion (hnone ▸ hxc)
      · exact Option.noConfusion hp

/-- Witness for C2 amended: a valid integer triple parses to its value, and a
two-token string fails. -/
theorem parse_coords_amended_witness :
    parseCoords "0_-52_26" = some (0, -52, 26) ∧ parseCoords "0_-52" = none :=
  ⟨(parse_coords_amended "0_-52_26").1 "0".toList "-52".toList "26".toList
      0 (-52) 26 (by decide) (by decide) (by decide) (by decide),
    (parse_coords_amended "0_-52").2 (Or.inl (by decide))⟩
